import Mathlib

/-!
Verification of the recipe-management REST API (tag / ingredient / recipe
endpoints) against its natural-language specification.

The embedding follows `src/app/recipe/views.py` and `src/app/recipe/urls.py`
directly.  The ORM entities (`core.models`), the serializers
(`recipe/serializers.py`) and the `RecipeViewSet` are referenced by the
files above and by the test-suite but their defining modules are not part
of the source tree examined here; those parts are modelled from the
specification and are marked as such in their doc comments.

Conventions of the embedding:
  * users are identified by a `Nat` key; an authenticated request carries
    `some u`, an unauthenticated (missing or invalid token) request `none`;
  * the persistence layer is an explicit `Store` value threaded through
    each operation; auto-generated primary keys are modelled by per-table
    counters;
  * the framework's `order_by` is modelled with `List.insertionSort`;
  * each endpoint returns its HTTP status code, its response payload, and
    (for mutating endpoints) the resulting store.
-/

namespace RecipeApp

/-- Modelled from the spec: `core.models.Tag` is not in the examined tree.
Spec §3: Tag is \x7bname, owning user reference\x7d; a tag belongs to exactly one
user.  The surrogate primary key is `id`. -/
structure Tag where
  id : Nat
  user : Nat
  name : String
  deriving Repr, DecidableEq

/-- Modelled from the spec: `core.models.Ingredient` is not in the examined
tree.  Spec §3: Ingredient is \x7bname, owning user reference\x7d, same ownership
pattern as Tag. -/
structure Ingredient where
  id : Nat
  user : Nat
  name : String
  deriving Repr, DecidableEq

/-- Modelled from the spec: `core.models.Recipe` is not in the examined tree.
Spec §3: Recipe is \x7btitle, time_minutes (integer), price (decimal), owning
user reference, set of Tag references, set of Ingredient references\x7d.  The
optional link/image field is exercised by no claim and is left out.  The
many-to-many relations are kept as lists of primary keys. -/
structure Recipe where
  id : Nat
  user : Nat
  title : String
  time_minutes : Nat
  price : ℚ
  tags : List Nat
  ingredients : List Nat
  deriving Repr, DecidableEq

/-- The persistence layer: one table per entity plus the auto-increment
counters that generate fresh primary keys. -/
structure Store where
  tags : List Tag := []
  ingredients : List Ingredient := []
  recipes : List Recipe := []
  nextTagId : Nat := 0
  nextIngredientId : Nat := 0
  nextRecipeId : Nat := 0
  deriving Repr, DecidableEq

/-- The authentication result attached to a request: `some u` when the
bearer token maps to the active user `u`, `none` when the token is missing
or invalid. -/
abbrev Auth := Option Nat

/-- The comparison used by `order_by('-name')` on tags: earlier records have
the larger (or equal) name. -/
def tagNameGe (a b : Tag) : Prop := b.name ≤ a.name

instance : DecidableRel tagNameGe := fun a b =>
  inferInstanceAs (Decidable (b.name ≤ a.name))

instance : IsTotal Tag tagNameGe := ⟨fun a b => le_total b.name a.name⟩

instance : IsTrans Tag tagNameGe :=
  ⟨fun _ _ _ h1 h2 => le_trans h2 h1⟩

/-- The comparison used by `order_by('-name')` on ingredients. -/
def ingredientNameGe (a b : Ingredient) : Prop := b.name ≤ a.name

instance : DecidableRel ingredientNameGe := fun a b =>
  inferInstanceAs (Decidable (b.name ≤ a.name))

instance : IsTotal Ingredient ingredientNameGe := ⟨fun a b => le_total b.name a.name⟩

instance : IsTrans Ingredient ingredientNameGe :=
  ⟨fun _ _ _ h1 h2 => le_trans h2 h1⟩

/-- The comparison used by `order_by('-id')` on recipes. -/
def recipeIdGe (a b : Recipe) : Prop := b.id ≤ a.id

instance : DecidableRel recipeIdGe := fun a b =>
  inferInstanceAs (Decidable (b.id ≤ a.id))

instance : IsTotal Recipe recipeIdGe := ⟨fun a b => le_total b.id a.id⟩

instance : IsTrans Recipe recipeIdGe :=
  ⟨fun _ _ _ h1 h2 => le_trans h2 h1⟩

/-- `src/app/recipe/views.py`, `TagViewSet.get_queryset`:
`self.queryset.filter(user=self.request.user).order_by('-name')`. -/
def tagQueryset (s : Store) (u : Nat) : List Tag :=
  List.insertionSort tagNameGe (s.tags.filter (fun t => t.user == u))

/-- `src/app/recipe/views.py`, `IngredientViewSet.get_queryset`:
`self.queryset.filter(user=self.request.user).order_by('-name')`. -/
def ingredientQueryset (s : Store) (u : Nat) : List Ingredient :=
  List.insertionSort ingredientNameGe (s.ingredients.filter (fun i => i.user == u))

/-- Modelled from the spec: `RecipeViewSet` is registered in
`src/app/recipe/urls.py` and exercised by the tests but its definition is
not in the examined tree.  Spec §4.2 / §8: the recipe list is the records
owned by the current user in descending id order. -/
def recipeQueryset (s : Store) (u : Nat) : List Recipe :=
  List.insertionSort recipeIdGe (s.recipes.filter (fun r => r.user == u))

/-- Wire form of a tag.  Modelled from the spec: `recipe/serializers.py` is
not in the examined tree; spec §4.3: Tag/Ingredient use a single flat
serializer \x7bid, name\x7d. -/
structure TagOut where
  id : Nat
  name : String
  deriving Repr, DecidableEq

/-- Wire form of an ingredient (spec §4.3, flat \x7bid, name\x7d serializer). -/
structure IngredientOut where
  id : Nat
  name : String
  deriving Repr, DecidableEq

/-- Wire form of a recipe in the list serializer.  Modelled from the spec,
§4.3: the list serializer renders relations as ids. -/
structure RecipeOut where
  id : Nat
  title : String
  time_minutes : Nat
  price : ℚ
  tags : List Nat
  ingredients : List Nat
  deriving Repr, DecidableEq

/-- Serialize one tag to its wire form (spec §4.3). -/
def serializeTag (t : Tag) : TagOut := ⟨t.id, t.name⟩

/-- Serialize one ingredient to its wire form (spec §4.3). -/
def serializeIngredient (i : Ingredient) : IngredientOut := ⟨i.id, i.name⟩

/-- Serialize one recipe to its list wire form (spec §4.3). -/
def serializeRecipe (r : Recipe) : RecipeOut :=
  ⟨r.id, r.title, r.time_minutes, r.price, r.tags, r.ingredients⟩

/-- Client payload for creating a tag.  The `user` field models a
client-supplied owner key: the serializer exposes only \x7bid, name\x7d
(spec §4.3) and `TagViewSet.perform_create` in `src/app/recipe/views.py`
saves with `user=self.request.user`, so this field is never read. -/
structure TagPayload where
  name : String
  user : Option Nat := none

/-- Client payload for creating an ingredient. -/
structure IngredientPayload where
  name : String

/-- `GET /recipe/tags/` (list).  Authentication gate from
`src/app/recipe/views.py` (`TokenAuthentication`, `IsAuthenticated`):
an unauthenticated request is answered 401 with no data; an authenticated
one gets the serialized queryset of `TagViewSet.get_queryset`. -/
def listTagsApi (s : Store) (a : Auth) : Nat × List TagOut :=
  match a with
  | none => (401, [])
  | some u => (200, (tagQueryset s u).map serializeTag)

/-- `GET /recipe/ingredients/` (list), from `IngredientViewSet` in
`src/app/recipe/views.py`. -/
def listIngredientsApi (s : Store) (a : Auth) : Nat × List IngredientOut :=
  match a with
  | none => (401, [])
  | some u => (200, (ingredientQueryset s u).map serializeIngredient)

/-- `GET /recipe/recipes/` (list).  Modelled from the spec (`RecipeViewSet`
is not in the examined tree): 401 when unauthenticated, else the user's
recipes in descending id order through the list serializer. -/
def listRecipesApi (s : Store) (a : Auth) : Nat × List RecipeOut :=
  match a with
  | none => (401, [])
  | some u => (200, (recipeQueryset s u).map serializeRecipe)

/-- `POST /recipe/tags/` (create), from `TagViewSet` in
`src/app/recipe/views.py` (`CreateModelMixin` + `perform_create` saving
with `user=self.request.user`).  Name validation is modelled from the
spec (§4.3: name must be a non-empty string).  Returns
(status, response body, resulting store). -/
def createTagApi (s : Store) (a : Auth) (p : TagPayload) :
    Nat × Option TagOut × Store :=
  match a with
  | none => (401, none, s)
  | some u =>
    if p.name = "" then (400, none, s)
    else
      let t : Tag := ⟨s.nextTagId, u, p.name⟩
      (201, some (serializeTag t),
        { s with tags := s.tags ++ [t], nextTagId := s.nextTagId + 1 })

/-- `POST /recipe/ingredients/`.  From `src/app/recipe/views.py`:
`IngredientViewSet` mixes in only `GenericViewSet` and `ListModelMixin`,
so no `create` action exists and the router binds no handler to POST.
The framework runs authentication before method resolution, hence an
unauthenticated POST is 401 and an authenticated POST is 405
(method not allowed); in both cases the store is untouched. -/
def createIngredientApi (s : Store) (a : Auth) (_p : IngredientPayload) :
    Nat × Option IngredientOut × Store :=
  match a with
  | none => (401, none, s)
  | some _ => (405, none, s)

/-- Client payload for creating a recipe.  Modelled from the spec, §6:
`POST /recipe/recipes/` takes \x7btitle, time_minutes, price, tags?,
ingredients?\x7d with the relation lists optional. -/
structure RecipeCreatePayload where
  title : String
  time_minutes : Nat
  price : ℚ
  tags : Option (List Nat) := none
  ingredients : Option (List Nat) := none

/-- The primary keys of the tags owned by user `u`. -/
def userTagIds (s : Store) (u : Nat) : List Nat :=
  (s.tags.filter (fun t => t.user == u)).map (fun t => t.id)

/-- The primary keys of the ingredients owned by user `u`. -/
def userIngredientIds (s : Store) (u : Nat) : List Nat :=
  (s.ingredients.filter (fun i => i.user == u)).map (fun i => i.id)

/-- `POST /recipe/recipes/` (create).  Modelled from the spec
(`RecipeViewSet` and the recipe serializer are not in the examined tree),
§4.2: create validates the payload (title non-empty, related primary keys
must exist among the requester's records), persists with owner set to the
current user, and returns the created record with its generated id. -/
def createRecipeApi (s : Store) (a : Auth) (p : RecipeCreatePayload) :
    Nat × Option RecipeOut × Store :=
  match a with
  | none => (401, none, s)
  | some u =>
    if p.title = "" then (400, none, s)
    else if ¬ ((p.tags.getD []).all (fun i => (userTagIds s u).any (fun j => j == i))) then
      (400, none, s)
    else if ¬ ((p.ingredients.getD []).all
        (fun i => (userIngredientIds s u).any (fun j => j == i))) then
      (400, none, s)
    else
      let r : Recipe := ⟨s.nextRecipeId, u, p.title, p.time_minutes, p.price,
        p.tags.getD [], p.ingredients.getD []⟩
      (201, some (serializeRecipe r),
        { s with recipes := s.recipes ++ [r], nextRecipeId := s.nextRecipeId + 1 })

/-- Payload of a `PUT /recipe/recipes/{id}/` full update.  Modelled from the
spec, §4.2: title, time_minutes and price are required; relation lists left
out of the payload clear the relations. -/
structure RecipePutPayload where
  title : String
  time_minutes : Nat
  price : ℚ
  tags : Option (List Nat) := none
  ingredients : Option (List Nat) := none

/-- Payload of a `PATCH /recipe/recipes/{id}/` partial update: every field
is optional and only the provided ones are applied (spec §4.2). -/
structure RecipePatchPayload where
  title : Option String := none
  time_minutes : Option Nat := none
  price : Option ℚ := none
  tags : Option (List Nat) := none
  ingredients : Option (List Nat) := none

/-- Direct access to one recipe through the user-scoped queryset: the
record with primary key `rid` owned by `u`, if any. -/
def findRecipe (s : Store) (u : Nat) (rid : Nat) : Option Recipe :=
  s.recipes.find? (fun r => r.user == u && r.id == rid)

/-- Write back an updated row: every stored recipe with primary key `rid`
is replaced by `r'`, the rest are untouched. -/
def replaceRecipe (s : Store) (rid : Nat) (r' : Recipe) : Store :=
  { s with recipes := s.recipes.map (fun x => if x.id = rid then r' else x) }

/-- `PUT /recipe/recipes/{id}/` (full update).  Modelled from the spec,
§4.2: full replace; relation lists absent from the payload are cleared;
a record not owned by the requester is excluded from the queryset and the
access surfaces as 404. -/
def putRecipeApi (s : Store) (a : Auth) (rid : Nat) (p : RecipePutPayload) :
    Nat × Store :=
  match a with
  | none => (401, s)
  | some u =>
    match findRecipe s u rid with
    | none => (404, s)
    | some r =>
      let r' : Recipe := { r with
        title := p.title
        time_minutes := p.time_minutes
        price := p.price
        tags := p.tags.getD []
        ingredients := p.ingredients.getD [] }
      (200, replaceRecipe s rid r')

/-- `PATCH /recipe/recipes/{id}/` (partial update).  Modelled from the
spec, §4.2: partial merge; only provided fields and relations change. -/
def patchRecipeApi (s : Store) (a : Auth) (rid : Nat) (p : RecipePatchPayload) :
    Nat × Store :=
  match a with
  | none => (401, s)
  | some u =>
    match findRecipe s u rid with
    | none => (404, s)
    | some r =>
      let r' : Recipe := { r with
        title := p.title.getD r.title
        time_minutes := p.time_minutes.getD r.time_minutes
        price := p.price.getD r.price
        tags := p.tags.getD r.tags
        ingredients := p.ingredients.getD r.ingredients }
      (200, replaceRecipe s rid r')

/-- The three view sets of the recipe app. -/
inductive ViewSetId
  | tagVS
  | ingredientVS
  | recipeVS
  deriving Repr, DecidableEq

/-- The operations a view set may expose. -/
inductive ApiAction
  | list
  | create
  | retrieve
  | update
  | patch
  deriving Repr, DecidableEq

/-- `src/app/recipe/urls.py`: the `DefaultRouter` registrations, in order:
`router.register('tags', views.TagViewSet)`,
`router.register('ingredients', views.IngredientViewSet)`,
`router.register('recipes', views.RecipeViewSet)`. -/
def routerTable : List (String × ViewSetId) :=
  [("tags", ViewSetId.tagVS),
   ("ingredients", ViewSetId.ingredientVS),
   ("recipes", ViewSetId.recipeVS)]

/-- Router dispatch: the view set registered under a given URL path
fragment. -/
def routeLookup (path : String) : Option ViewSetId :=
  (routerTable.find? (fun e => e.1 == path)).map (fun e => e.2)

/-- Which actions each view set exposes.  Tag and ingredient come from the
mixin lists in `src/app/recipe/views.py` (`TagViewSet`: list + create;
`IngredientViewSet`: list only).  The recipe row is modelled from the
spec, §4.2: `RecipeViewSet` is not in the examined tree and the spec gives
it list, create, retrieve, update and partial update. -/
def supportsAction : ViewSetId → ApiAction → Bool
  | ViewSetId.tagVS, ApiAction.list => true
  | ViewSetId.tagVS, ApiAction.create => true
  | ViewSetId.tagVS, _ => false
  | ViewSetId.ingredientVS, ApiAction.list => true
  | ViewSetId.ingredientVS, _ => false
  | ViewSetId.recipeVS, _ => true

end RecipeApp

namespace RecipeApp

/-- Fixture for the C1 witness: user 0 and user 1 each own one tag and one
ingredient. -/
def c1Store : Store :=
  { tags := [⟨0, 0, "Comfort Food"⟩, ⟨1, 1, "Fruity"⟩]
    ingredients := [⟨0, 0, "Tumeric"⟩, ⟨1, 1, "Humus"⟩]
    nextTagId := 2
    nextIngredientId := 2 }

/-- Fixture for the C8 witness: user 0 owns two tags and one recipe that
references tag 0. -/
def c8Store : Store :=
  { tags := [⟨0, 0, "Main course"⟩, ⟨1, 0, "Curry"⟩]
    recipes := [⟨0, 0, "Sample recipe", 10, 5, [0], []⟩]
    nextTagId := 2
    nextRecipeId := 1 }

/-- Fixture for the C9 witness: user 0 owns the tags "Vegan" (id 0) and
"Dessert" (id 1). -/
def c9Store : Store :=
  { tags := [⟨0, 0, "Vegan"⟩, ⟨1, 0, "Dessert"⟩]
    nextTagId := 2 }

/-! ### Helper lemmas -/

/-- `find?` returns the record `r` whenever `r` matches and every match in
the list is `r` (the uniqueness a primary-key lookup relies on). -/
theorem find_first_of_unique {α : Type} (p : α → Bool) (l : List α) (r : α)
    (hmem : r ∈ l) (hp : p r = true) (huniq : ∀ x ∈ l, p x = true → x = r) :
    l.find? p = some r := by
  induction l with
  | nil => cases hmem
  | cons a tl ih =>
    by_cases hpa : p a = true
    · have ha : a = r := huniq a (List.mem_cons_self a tl) hpa
      subst ha
      simp [List.find?_cons_of_pos _ hpa]
    · rw [List.find?_cons_of_neg _ hpa]
      rcases List.mem_cons.mp hmem with he | hm
      · exact absurd (he ▸ hp) hpa
      · exact ih hm (fun x hx hpx => huniq x (List.mem_cons_of_mem a hx) hpx)

/-- Primary-key lookup through the user-scoped queryset finds the stored
row when ids are unique. -/
theorem findRecipe_eq (s : Store) (u : Nat) (r : Recipe)
    (hr : r ∈ s.recipes) (hu : r.user = u)
    (huniq : ∀ x ∈ s.recipes, x.id = r.id → x = r) :
    findRecipe s u r.id = some r := by
  apply find_first_of_unique _ _ _ hr
  · simp [hu]
  · intro x hx hpx
    have hxid : x.id = r.id := by
      simpa using (And.right (by simpa using hpx))
    exact huniq x hx hxid

/-- After writing back `r'` at primary key `rid`, the scoped lookup at
`rid` returns `r'`. -/
theorem findRecipe_replace_eq (s : Store) (u rid : Nat) (r r' : Recipe)
    (hr : r ∈ s.recipes) (hrid : r.id = rid) (hid : r'.id = rid)
    (hru : r'.user = u) :
    findRecipe (replaceRecipe s rid r') u rid = some r' := by
  apply find_first_of_unique _ _ r'
  · have h1 : (if r.id = rid then r' else r) ∈
        s.recipes.map (fun x : Recipe => if x.id = rid then r' else x) :=
      List.mem_map_of_mem _ hr
    rw [if_pos hrid] at h1
    exact h1
  · simp [hid, hru]
  · intro y hy hpy
    have hyid : y.id = rid := by
      simpa using (And.right (by simpa using hpy))
    rcases List.mem_map.mp hy with ⟨x, hxmem, hxy⟩
    by_cases hxid : x.id = rid
    · rw [if_pos hxid] at hxy
      exact hxy.symm
    · rw [if_neg hxid] at hxy
      subst hxy
      exact absurd hyid hxid

/-- Rows with a different primary key survive a write-back untouched. -/
theorem replaceRecipe_frame (s : Store) (rid : Nat) (r' : Recipe) (x : Recipe)
    (hx : x ∈ s.recipes) (hne : x.id ≠ rid) :
    x ∈ (replaceRecipe s rid r').recipes := by
  have h1 : (if x.id = rid then r' else x) ∈
      s.recipes.map (fun y : Recipe => if y.id = rid then r' else y) :=
    List.mem_map_of_mem _ hx
  rw [if_neg hne] at h1
  exact h1

/-- A tag owned by `u` contributes its primary key to `userTagIds`. -/
theorem mem_userTagIds (s : Store) (u : Nat) (t : Tag)
    (ht : t ∈ s.tags) (hu : t.user = u) : t.id ∈ userTagIds s u := by
  apply List.mem_map_of_mem
  exact List.mem_filter.mpr ⟨ht, by simp [hu]⟩

end RecipeApp

namespace RecipeApp

/-- C2: the router maps the path fragment `recipes` to the recipe view set,
which exposes the list, create, retrieve, update and partial-update
operations, so GET/POST on the collection and GET/PUT/PATCH on a member
are all dispatchable. -/
theorem c2_recipes_route_dispatch :
    routeLookup "recipes" = some ViewSetId.recipeVS ∧
    supportsAction ViewSetId.recipeVS ApiAction.list = true ∧
    supportsAction ViewSetId.recipeVS ApiAction.create = true ∧
    supportsAction ViewSetId.recipeVS ApiAction.retrieve = true ∧
    supportsAction ViewSetId.recipeVS ApiAction.update = true ∧
    supportsAction ViewSetId.recipeVS ApiAction.patch = true :=
  ⟨rfl, rfl, rfl, rfl, rfl, rfl⟩

/-- C3: the claim (and the repository's own `test_create_ingredient_successfully`)
says an authenticated POST to /recipe/ingredients/ with a valid name creates
the record; `IngredientViewSet` in `src/app/recipe/views.py` mixes in no
create action, so the code answers 405, returns no record, and leaves the
store unchanged — in particular no (user, name) record is persisted. -/
theorem c3_ingredient_create_returns_405 (s : Store) (u : Nat) (p : IngredientPayload) :
    (createIngredientApi s (some u) p).1 = 405 ∧
    (createIngredientApi s (some u) p).2.1 = none ∧
    (createIngredientApi s (some u) p).2.2 = s :=
  ⟨rfl, rfl, rfl⟩

/-- C4: a request without a valid bearer token to any tag / ingredient /
recipe list or create endpoint is answered 401, carries no record data, and
changes no state. -/
theorem c4_unauthenticated_401_no_data (s : Store) (pt : TagPayload)
    (pi : IngredientPayload) (pr : RecipeCreatePayload) :
    listTagsApi s none = (401, []) ∧
    listIngredientsApi s none = (401, []) ∧
    listRecipesApi s none = (401, []) ∧
    createTagApi s none pt = (401, none, s) ∧
    createIngredientApi s none pi = (401, none, s) ∧
    createRecipeApi s none pr = (401, none, s) :=
  ⟨rfl, rfl, rfl, rfl, rfl, rfl⟩

/-- C5: creating a tag with an empty name is rejected with 400 and the
store is unchanged, as the claim says; but the ingredient half fails on
the code: `IngredientViewSet` has no create action, so the same request
on /recipe/ingredients/ is answered 405, not the 400 the claim (and
`test_create_ingredient_invalid`) requires.  The store stays unchanged in
both cases. -/
theorem c5_empty_name_tag_400_ingredient_405 (s : Store) (u : Nat) :
    createTagApi s (some u) ⟨"", none⟩ = (400, none, s) ∧
    (createIngredientApi s (some u) ⟨""⟩).1 = 405 ∧
    (createIngredientApi s (some u) ⟨""⟩).1 ≠ 400 ∧
    (createIngredientApi s (some u) ⟨""⟩).2.2 = s := by
  refine ⟨?_, rfl, ?_, rfl⟩
  · simp [createTagApi]
  · show (405 : Nat) ≠ 400
    decide

end RecipeApp

namespace RecipeApp

/-- C1: the tag and ingredient list operations performed as user A return
only records owned by A and never one owned by a distinct user B; with a
store holding exactly one A-owned and one B-owned record, the list as A is
exactly the A-owned record. -/
theorem c1_list_scoped_to_requesting_user (s : Store) (A B : Nat) (hAB : A ≠ B) :
    (∀ t ∈ tagQueryset s A, t.user = A ∧ t.user ≠ B) ∧
    (∀ i ∈ ingredientQueryset s A, i.user = A ∧ i.user ≠ B) ∧
    (∀ tA tB : Tag, s.tags = [tA, tB] → tA.user = A → tB.user = B →
      listTagsApi s (some A) = (200, [serializeTag tA])) ∧
    (∀ iA iB : Ingredient, s.ingredients = [iA, iB] → iA.user = A → iB.user = B →
      listIngredientsApi s (some A) = (200, [serializeIngredient iA])) := by
  have hBA : B ≠ A := fun h => hAB h.symm
  have hba : (B == A) = false := beq_eq_false_iff_ne.mpr hBA
  refine ⟨?_, ?_, ?_, ?_⟩
  · intro t ht
    rw [tagQueryset, List.mem_insertionSort] at ht
    have := List.mem_filter.mp ht
    have htu : t.user = A := by simpa using this.2
    exact ⟨htu, fun h => hAB (htu ▸ h)⟩
  · intro i hi
    rw [ingredientQueryset, List.mem_insertionSort] at hi
    have := List.mem_filter.mp hi
    have hiu : i.user = A := by simpa using this.2
    exact ⟨hiu, fun h => hAB (hiu ▸ h)⟩
  · intro tA tB hs h1 h2
    have hfil : s.tags.filter (fun t => t.user == A) = [tA] := by
      rw [hs]
      simp [List.filter, h1, h2, hba]
    simp [listTagsApi, tagQueryset, hfil]
  · intro iA iB hs h1 h2
    have hfil : s.ingredients.filter (fun i => i.user == A) = [iA] := by
      rw [hs]
      simp [List.filter, h1, h2, hba]
    simp [listIngredientsApi, ingredientQueryset, hfil]

/-- Witness for C1 at users A = 0, B = 1 on `c1Store`. -/
theorem c1_list_scoped_to_requesting_user_witness :
    listTagsApi c1Store (some 0) = (200, [serializeTag ⟨0, 0, "Comfort Food"⟩]) ∧
    listIngredientsApi c1Store (some 0) = (200, [serializeIngredient ⟨0, 0, "Tumeric"⟩]) :=
  ⟨(c1_list_scoped_to_requesting_user c1Store 0 1 (by decide)).2.2.1
      ⟨0, 0, "Comfort Food"⟩ ⟨1, 1, "Fruity"⟩ rfl rfl rfl,
   (c1_list_scoped_to_requesting_user c1Store 0 1 (by decide)).2.2.2
      ⟨0, 0, "Tumeric"⟩ ⟨1, 1, "Humus"⟩ rfl rfl rfl⟩

/-- C6: for every authenticated user and store, the tag and ingredient
lists are returned in descending name order and the recipe list in
descending id order (each adjacent later element is ≤ the earlier one). -/
theorem c6_list_ordering_descending (s : Store) (u : Nat) :
    ((listTagsApi s (some u)).2).Pairwise (fun a b => b.name ≤ a.name) ∧
    ((listIngredientsApi s (some u)).2).Pairwise (fun a b => b.name ≤ a.name) ∧
    ((listRecipesApi s (some u)).2).Pairwise (fun a b => b.id ≤ a.id) := by
  refine ⟨?_, ?_, ?_⟩
  · exact List.pairwise_map.mpr
      ((List.sorted_insertionSort tagNameGe
        (s.tags.filter (fun t => t.user == u))).imp (fun h => h))
  · exact List.pairwise_map.mpr
      ((List.sorted_insertionSort ingredientNameGe
        (s.ingredients.filter (fun i => i.user == u))).imp (fun h => h))
  · exact List.pairwise_map.mpr
      ((List.sorted_insertionSort recipeIdGe
        (s.recipes.filter (fun r => r.user == u))).imp (fun h => h))

/-- C7: a successful tag create persists a record owned by the authenticated
requester and returns that record with a freshly generated id (one no
existing tag carries). -/
theorem c7_tag_create_sets_owner_fresh_id (s : Store) (u : Nat) (p : TagPayload)
    (hname : p.name ≠ "") (hfresh : ∀ t ∈ s.tags, t.id < s.nextTagId) :
    (createTagApi s (some u) p).1 = 201 ∧
    ∃ t, (createTagApi s (some u) p).2.1 = some (serializeTag t) ∧
      t ∈ (createTagApi s (some u) p).2.2.tags ∧
      t.user = u ∧ t.name = p.name ∧ ∀ t' ∈ s.tags, t'.id ≠ t.id := by
  have hres : createTagApi s (some u) p =
      (201, some (serializeTag ⟨s.nextTagId, u, p.name⟩),
        { s with tags := s.tags ++ [⟨s.nextTagId, u, p.name⟩], nextTagId := s.nextTagId + 1 }) := by
    simp [createTagApi, hname]
  refine ⟨by rw [hres], ⟨s.nextTagId, u, p.name⟩, by rw [hres], ?_, rfl, rfl, ?_⟩
  · rw [hres]
    exact List.mem_append_right _ (List.mem_singleton.mpr rfl)
  · intro t' ht'
    exact Nat.ne_of_lt (hfresh t' ht')

/-- Witness for C7: creating the tag "Test tag" as user 0 on the empty
store. -/
theorem c7_tag_create_sets_owner_fresh_id_witness :
    (createTagApi {} (some 0) ⟨"Test tag", none⟩).1 = 201 :=
  (c7_tag_create_sets_owner_fresh_id {} 0 ⟨"Test tag", none⟩ (by decide) (by decide)).1

/-- C10: the owner of a created tag is determined solely by the
authenticated requester: two create requests by the same requester whose
payloads differ only in the client-supplied user field produce identical
results, and the persisted owner is the requester — never a client-chosen
user. -/
theorem c10_tag_owner_independent_of_payload (s : Store) (u : Nat)
    (p1 p2 : TagPayload) (hname : p1.name = p2.name) :
    createTagApi s (some u) p1 = createTagApi s (some u) p2 ∧
    (p1.name ≠ "" → ∃ t, (createTagApi s (some u) p1).2.1 = some (serializeTag t) ∧
      t ∈ (createTagApi s (some u) p1).2.2.tags ∧ t.user = u) := by
  constructor
  · cases p1
    cases p2
    cases hname
    rfl
  · intro hne
    have hres : createTagApi s (some u) p1 =
        (201, some (serializeTag ⟨s.nextTagId, u, p1.name⟩),
          { s with tags := s.tags ++ [⟨s.nextTagId, u, p1.name⟩], nextTagId := s.nextTagId + 1 }) := by
      simp [createTagApi, hne]
    exact ⟨⟨s.nextTagId, u, p1.name⟩, by rw [hres],
      by rw [hres]; exact List.mem_append_right _ (List.mem_singleton.mpr rfl), rfl⟩

/-- Witness for C10: same requester, payloads differing only in the
client-supplied user field. -/
theorem c10_tag_owner_independent_of_payload_witness :
    createTagApi {} (some 0) ⟨"Vegan", none⟩ = createTagApi {} (some 0) ⟨"Vegan", some 99⟩ :=
  (c10_tag_owner_independent_of_payload {} 0 ⟨"Vegan", none⟩ ⟨"Vegan", some 99⟩ rfl).1

end RecipeApp

namespace RecipeApp

/-- C8: on a recipe owned by the requester (with unique primary keys), a
PATCH carrying only a title and one tag id changes exactly the title and
the tag set — time_minutes, price and ingredients keep their values — and
a PUT carrying title/time/price and no relation lists replaces those
fields and clears the tag (and ingredient) set; either way every other
record survives untouched. -/
theorem c8_recipe_update_frame (s : Store) (u : Nat) (r : Recipe)
    (newTitle : String) (newTag newTime : Nat) (newPrice : ℚ)
    (hr : r ∈ s.recipes) (hu : r.user = u)
    (huniq : ∀ x ∈ s.recipes, x.id = r.id → x = r) :
    (patchRecipeApi s (some u) r.id { title := some newTitle, tags := some [newTag] }).1 = 200 ∧
    findRecipe (patchRecipeApi s (some u) r.id
        { title := some newTitle, tags := some [newTag] }).2 u r.id =
      some { r with title := newTitle, tags := [newTag] } ∧
    (∀ x ∈ s.recipes, x.id ≠ r.id →
      x ∈ ((patchRecipeApi s (some u) r.id
        { title := some newTitle, tags := some [newTag] }).2).recipes) ∧
    (putRecipeApi s (some u) r.id
        { title := newTitle, time_minutes := newTime, price := newPrice }).1 = 200 ∧
    findRecipe (putRecipeApi s (some u) r.id
        { title := newTitle, time_minutes := newTime, price := newPrice }).2 u r.id =
      some { r with title := newTitle, time_minutes := newTime, price := newPrice,
                    tags := [], ingredients := [] } ∧
    (∀ x ∈ s.recipes, x.id ≠ r.id →
      x ∈ ((putRecipeApi s (some u) r.id
        { title := newTitle, time_minutes := newTime, price := newPrice }).2).recipes) := by
  have hfind : findRecipe s u r.id = some r := findRecipe_eq s u r hr hu huniq
  have hpatch : patchRecipeApi s (some u) r.id
      { title := some newTitle, tags := some [newTag] } =
      (200, replaceRecipe s r.id { r with title := newTitle, tags := [newTag] }) := by
    simp [patchRecipeApi, hfind]
  have hput : putRecipeApi s (some u) r.id
      { title := newTitle, time_minutes := newTime, price := newPrice } =
      (200, replaceRecipe s r.id
        { r with title := newTitle, time_minutes := newTime, price := newPrice,
                 tags := [], ingredients := [] }) := by
    simp [putRecipeApi, hfind]
  refine ⟨by rw [hpatch], ?_, ?_, by rw [hput], ?_, ?_⟩
  · rw [hpatch]
    exact findRecipe_replace_eq s u r.id r _ hr rfl rfl hu
  · intro x hx hne
    rw [hpatch]
    exact replaceRecipe_frame s r.id _ x hx hne
  · rw [hput]
    exact findRecipe_replace_eq s u r.id r _ hr rfl rfl hu
  · intro x hx hne
    rw [hput]
    exact replaceRecipe_frame s r.id _ x hx hne

/-- Witness for C8 on `c8Store`: PATCH retitles to "Chicken Tikka" with tag
1 only; PUT replaces title/time/price and clears the tag set. -/
theorem c8_recipe_update_frame_witness :
    (patchRecipeApi c8Store (some 0) 0 { title := some "Chicken Tikka", tags := some [1] }).1 = 200 ∧
    findRecipe (patchRecipeApi c8Store (some 0) 0
        { title := some "Chicken Tikka", tags := some [1] }).2 0 0 =
      some ⟨0, 0, "Chicken Tikka", 10, 5, [1], []⟩ ∧
    (putRecipeApi c8Store (some 0) 0
        { title := "sample title", time_minutes := 54, price := 23 }).1 = 200 ∧
    findRecipe (putRecipeApi c8Store (some 0) 0
        { title := "sample title", time_minutes := 54, price := 23 }).2 0 0 =
      some ⟨0, 0, "sample title", 54, 23, [], []⟩ :=
  ⟨(c8_recipe_update_frame c8Store 0 ⟨0, 0, "Sample recipe", 10, 5, [0], []⟩
      "Chicken Tikka" 1 54 23 (by decide) rfl (by decide)).1,
   (c8_recipe_update_frame c8Store 0 ⟨0, 0, "Sample recipe", 10, 5, [0], []⟩
      "Chicken Tikka" 1 54 23 (by decide) rfl (by decide)).2.1,
   (c8_recipe_update_frame c8Store 0 ⟨0, 0, "Sample recipe", 10, 5, [0], []⟩
      "sample title" 1 54 23 (by decide) rfl (by decide)).2.2.2.1,
   (c8_recipe_update_frame c8Store 0 ⟨0, 0, "Sample recipe", 10, 5, [0], []⟩
      "sample title" 1 54 23 (by decide) rfl (by decide)).2.2.2.2.1⟩

/-- C9: creating a recipe with `tags := [id1, id2]` for two distinct
existing tags owned by the requester succeeds with 201 and persists a
recipe owned by the requester whose tag set has exactly the two members
id1 and id2. -/
theorem c9_recipe_create_with_two_tags (s : Store) (u : Nat) (t1 t2 : Tag)
    (p : RecipeCreatePayload)
    (ht1 : t1 ∈ s.tags) (ht2 : t2 ∈ s.tags) (hu1 : t1.user = u) (hu2 : t2.user = u)
    (hne : t1.id ≠ t2.id) (htitle : p.title ≠ "")
    (htags : p.tags = some [t1.id, t2.id]) (hing : p.ingredients = none) :
    (createRecipeApi s (some u) p).1 = 201 ∧
    ∃ cr, cr ∈ (createRecipeApi s (some u) p).2.2.recipes ∧ cr.user = u ∧
      cr.tags.length = 2 ∧ (∀ x, x ∈ cr.tags ↔ x = t1.id ∨ x = t2.id) ∧
      cr.tags.Nodup := by
  have hm1 : t1.id ∈ userTagIds s u := mem_userTagIds s u t1 ht1 hu1
  have hm2 : t2.id ∈ userTagIds s u := mem_userTagIds s u t2 ht2 hu2
  have hall : (([t1.id, t2.id]).all
      (fun i => (userTagIds s u).any (fun j => j == i))) = true := by
    simp [List.all_eq_true, List.any_eq_true]
    exact ⟨hm1, hm2⟩

  have hres : createRecipeApi s (some u) p =
      (201, some (serializeRecipe ⟨s.nextRecipeId, u, p.title, p.time_minutes, p.price,
          [t1.id, t2.id], []⟩),
        { s with
          recipes := s.recipes ++
            [⟨s.nextRecipeId, u, p.title, p.time_minutes, p.price, [t1.id, t2.id], []⟩]
          nextRecipeId := s.nextRecipeId + 1 }) := by
    simp [createRecipeApi, htitle, htags, hing, hall]
  refine ⟨by rw [hres], ⟨s.nextRecipeId, u, p.title, p.time_minutes, p.price,
      [t1.id, t2.id], []⟩, ?_, rfl, rfl, ?_, ?_⟩
  · rw [hres]
    exact List.mem_append_right _ (List.mem_singleton.mpr rfl)
  · intro x
    simp
  · simp [hne]

/-- Witness for C9: creating "Sample recipe" with tags [0, 1] as user 0. -/
theorem c9_recipe_create_with_two_tags_witness :
    (createRecipeApi c9Store (some 0) ⟨"Sample recipe", 14, 23, some [0, 1], none⟩).1 = 201 :=
  (c9_recipe_create_with_two_tags c9Store 0 ⟨0, 0, "Vegan"⟩ ⟨1, 0, "Dessert"⟩
    ⟨"Sample recipe", 14, 23, some [0, 1], none⟩
    (by decide) (by decide) rfl rfl (by decide) (by decide) rfl rfl).1

end RecipeApp
